import Mathlib

/-!
Shallow embedding of the MCP-agent repository's analytics logic, translated
from `src/agent/analytics_agent.py` (classes `MCPClient`, `AnalyticsIntelligence`,
`AnalyticsAgent`) and `src/mcp_server/ga_mcp_server.py` (`GAMCPServer.handle_tool_call`).

Python numbers stored in a metrics snapshot are modelled as rationals (ℚ);
the threshold comparisons in the source are exact on ℚ.  Python dictionary
reads `data.get(key, 0)` are modelled as `Option` fields read with `Option.getD`.
String formatting of metric values (`f"{x}"`) is modelled by `fmtQ`, which agrees
with Python on integer-valued metrics (every value exercised by the claims);
non-integer rationals are rendered as `num/den` instead of decimal notation,
a rendering difference that no claim depends on.
-/

/-- ASCII lowercasing of one character; model of Python `str.lower` restricted to
the ASCII questions and keywords appearing in the source. -/
def charLower (c : Char) : Char :=
  if c.toNat ≥ 65 ∧ c.toNat ≤ 90 then Char.ofNat (c.toNat + 32) else c

/-- Model of Python `str.lower` (ASCII). -/
def strLower (s : String) : String := String.mk (s.data.map charLower)

/-- Does the second character list start with the first? -/
def chStartsWith (needle hay : List Char) : Bool :=
  match needle, hay with
  | [], _ => true
  | _, [] => false
  | a :: as, b :: bs => if a = b then chStartsWith as bs else false

/-- Does the second character list contain the first as a contiguous sublist? -/
def chContainsAux : List Char → List Char → Bool
  | needle, [] => needle.isEmpty
  | needle, c :: t => chStartsWith needle (c :: t) || chContainsAux needle t

/-- Model of the Python substring test `needle in hay`. -/
def strContainsSub (hay needle : String) : Bool := chContainsAux needle.data hay.data

/-- The ASCII apostrophe character, as a string. -/
def apostrophe : String := String.singleton (Char.ofNat 39)

/-- Rendering of a rational metric value; agrees with Python `f"{x}"` whenever the
value is an integer. -/
def fmtQ (q : ℚ) : String :=
  if q.den = 1 then toString q.num else toString q.num ++ "/" ++ toString q.den

/-- Model of Python `d // k` (floor division) for a rational `d` and positive
integer `k`: `⌊d / k⌋ = d.num.fdiv (d.den * k)`. -/
def pyFloorDiv (d : ℚ) (k : ℤ) : ℤ := Int.fdiv d.num (d.den * k)

/-- Model of Python `d % k` for metric values on which the source's `:02d` format
specifier is defined (integer-valued `d`): the nonnegative remainder. -/
def pyModInt (d : ℚ) (k : ℤ) : ℤ := Int.fdiv (Int.fmod d.num (k * d.den)) d.den

/-- Model of the Python format specifier `:02d`: pad a nonnegative one-digit
integer with a leading zero. -/
def pad2 (n : ℤ) : String := if 0 ≤ n ∧ n < 10 then "0" ++ toString n else toString n

/-- Nested `channels` mapping of a traffic-sources response
(`data.get("channels", {})` reads; absent keys read as 0). -/
structure Channels where
  organic_search : Option ℚ := none
  direct : Option ℚ := none
  social : Option ℚ := none
  deriving DecidableEq

/-- A metrics snapshot: the JSON object a tool call returns, restricted to the
fields the agent reads.  `none` models an absent dictionary key. -/
structure MetricsSnapshot where
  sessions : Option ℚ := none
  pageviews : Option ℚ := none
  users : Option ℚ := none
  pages_per_session : Option ℚ := none
  bounce_rate : Option ℚ := none
  average_session_duration : Option ℚ := none
  channels : Option Channels := none
  deriving DecidableEq

/-- The `InsightType` enum of `analytics_agent.py`. -/
inductive InsightType where
  | performance
  | optimization
  | trend
  | alert
  | recommendation
  deriving DecidableEq

/-- The `Insight` dataclass of `analytics_agent.py`. -/
structure Insight where
  type : InsightType
  title : String
  description : String
  severity : String
  recommendations : List String
  data_source : String
  confidence : ℚ
  deriving DecidableEq

/-- The `sessions < 500` insight of `analyze_traffic_metrics`. -/
def lowTrafficInsight (sessions : ℚ) : Insight where
  type := InsightType.alert
  title := "Low Traffic Volume"
  description := "Website received only " ++ fmtQ sessions ++ " sessions. This is below typical benchmarks."
  severity := "high"
  recommendations :=
    ["Implement SEO optimization to improve organic search visibility",
     "Consider paid advertising campaigns to drive more traffic",
     "Analyze and improve content marketing strategy",
     "Check for technical issues that might be affecting site accessibility"]
  data_source := "traffic_metrics"
  confidence := 0.8

/-- The `sessions > 1000` insight of `analyze_traffic_metrics`. -/
def strongTrafficInsight (sessions : ℚ) : Insight where
  type := InsightType.performance
  title := "Strong Traffic Performance"
  description := "Website achieved " ++ fmtQ sessions ++ " sessions, indicating good traffic performance."
  severity := "low"
  recommendations :=
    ["Maintain current marketing strategies",
     "Consider scaling successful campaigns",
     "Focus on conversion optimization to maximize the high traffic"]
  data_source := "traffic_metrics"
  confidence := 0.9

/-- The `pages_per_session < 2.0` insight of `analyze_traffic_metrics`. -/
def lowPageEngagementInsight (pages_per_session : ℚ) : Insight where
  type := InsightType.optimization
  title := "Low Page Engagement"
  description := "Average of " ++ fmtQ pages_per_session ++ " pages per session suggests users aren"
    ++ apostrophe ++ "t exploring the site deeply."
  severity := "medium"
  recommendations :=
    ["Improve internal linking between related content",
     "Add " ++ apostrophe ++ "related articles" ++ apostrophe ++ " or " ++ apostrophe
       ++ "you might also like" ++ apostrophe ++ " sections",
     "Review and optimize page loading speeds",
     "Enhance navigation menu and site structure"]
  data_source := "traffic_metrics"
  confidence := 0.7

/-- Embedding of `AnalyticsIntelligence.analyze_traffic_metrics`. -/
def analyze_traffic_metrics (data : MetricsSnapshot) : List Insight :=
  let sessions := data.sessions.getD 0
  let pages_per_session := data.pages_per_session.getD 0
  (if sessions < 500 then [lowTrafficInsight sessions]
   else if sessions > 1000 then [strongTrafficInsight sessions]
   else [])
  ++ (if pages_per_session < 2 then [lowPageEngagementInsight pages_per_session] else [])

/-- The `bounce_rate > 70` insight of `analyze_engagement_metrics`. -/
def highBounceInsight (bounce_rate : ℚ) : Insight where
  type := InsightType.alert
  title := "High Bounce Rate"
  description := "Bounce rate of " ++ fmtQ bounce_rate ++ "% is concerning and indicates users are leaving quickly."
  severity := "high"
  recommendations :=
    ["Improve page loading speed (target <3 seconds)",
     "Ensure content matches user expectations from search results",
     "Enhance page design and user experience",
     "Add clear calls-to-action to guide user behavior",
     "Review mobile responsiveness and mobile user experience"]
  data_source := "engagement_metrics"
  confidence := 0.9

/-- The `bounce_rate < 40` insight of `analyze_engagement_metrics`. -/
def goodEngagementInsight (bounce_rate : ℚ) : Insight where
  type := InsightType.performance
  title := "Good User Engagement"
  description := "Bounce rate of " ++ fmtQ bounce_rate ++ "% indicates good user engagement."
  severity := "low"
  recommendations :=
    ["Continue current content and UX strategies",
     "Identify top-performing pages and replicate their success factors"]
  data_source := "engagement_metrics"
  confidence := 0.8

/-- The `avg_duration < 60` insight of `analyze_engagement_metrics`. -/
def shortSessionInsight (avg_duration : ℚ) : Insight where
  type := InsightType.optimization
  title := "Short Session Duration"
  description := "Average session duration of " ++ fmtQ avg_duration ++ " seconds suggests limited engagement."
  severity := "medium"
  recommendations :=
    ["Add more engaging, interactive content",
     "Improve content readability and structure",
     "Include videos, images, and other media to increase engagement",
     "Create compelling content that encourages further exploration"]
  data_source := "engagement_metrics"
  confidence := 0.7

/-- Embedding of `AnalyticsIntelligence.analyze_engagement_metrics`. -/
def analyze_engagement_metrics (data : MetricsSnapshot) : List Insight :=
  let bounce_rate := data.bounce_rate.getD 0
  let avg_duration := data.average_session_duration.getD 0
  (if bounce_rate > 70 then [highBounceInsight bounce_rate]
   else if bounce_rate < 40 then [goodEngagementInsight bounce_rate]
   else [])
  ++ (if avg_duration < 60 then [shortSessionInsight avg_duration] else [])

/-- The `organic_search > 70` insight of `analyze_traffic_sources`. -/
def organicDependencyInsight (organic_search : ℚ) : Insight where
  type := InsightType.alert
  title := "High Dependency on Organic Search"
  description := fmtQ organic_search ++ "% of traffic comes from organic search. This creates vulnerability to search algorithm changes."
  severity := "medium"
  recommendations :=
    ["Diversify traffic sources through social media marketing",
     "Invest in email marketing campaigns",
     "Consider paid advertising to reduce organic dependency",
     "Build direct traffic through brand awareness campaigns"]
  data_source := "traffic_sources"
  confidence := 0.8

/-- The `direct < 20` insight of `analyze_traffic_sources`. -/
def lowBrandInsight (direct : ℚ) : Insight where
  type := InsightType.optimization
  title := "Low Brand Recognition"
  description := "Only " ++ fmtQ direct ++ "% direct traffic suggests limited brand awareness."
  severity := "medium"
  recommendations :=
    ["Invest in brand awareness campaigns",
     "Improve brand recall through consistent messaging",
     "Encourage repeat visits through email newsletters",
     "Build a community around your brand"]
  data_source := "traffic_sources"
  confidence := 0.7

/-- The `social < 10` insight of `analyze_traffic_sources`. -/
def socialOpportunityInsight (social : ℚ) : Insight where
  type := InsightType.recommendation
  title := "Social Media Growth Opportunity"
  description := "Social traffic is only " ++ fmtQ social ++ "%, indicating untapped potential."
  severity := "low"
  recommendations :=
    ["Develop a comprehensive social media strategy",
     "Create shareable content optimized for each platform",
     "Engage actively with your audience on social platforms",
     "Consider social media advertising to expand reach"]
  data_source := "traffic_sources"
  confidence := 0.6

/-- Embedding of `AnalyticsIntelligence.analyze_traffic_sources`. -/
def analyze_traffic_sources (data : MetricsSnapshot) : List Insight :=
  let channels := data.channels.getD {}
  let organic_search := channels.organic_search.getD 0
  let direct := channels.direct.getD 0
  let social := channels.social.getD 0
  (if organic_search > 70 then [organicDependencyInsight organic_search] else [])
  ++ (if direct < 20 then [lowBrandInsight direct] else [])
  ++ (if social < 10 then [socialOpportunityInsight social] else [])

/-- One insight's three report lines, as appended by `generate_summary_report`. -/
def insightLines (i : Insight) : List String :=
  ["• " ++ i.title, "  " ++ i.description, ""]

/-- One severity section of the report: header and blank line followed by each
insight's lines, emitted only when the bucket is nonempty. -/
def sectionLines (header : String) (bucket : List Insight) : List String :=
  if bucket.isEmpty then [] else (header :: "" :: bucket.flatMap insightLines)

/-- The numbered recommendation lines (`enumerate(..., 1)` in the source). -/
def numberedLines : ℕ → List String → List String
  | _, [] => []
  | n, r :: rs => (toString n ++ ". " ++ r) :: numberedLines (n + 1) rs

/-- The `all_recommendations` list of `generate_summary_report`: the
recommendations of the high-severity insights followed by those of the
medium-severity insights, in arrival order. -/
def all_recommendations (all_insights : List Insight) : List String :=
  ((all_insights.filter (fun i => i.severity == "high"))
    ++ (all_insights.filter (fun i => i.severity == "medium"))).flatMap Insight.recommendations

/-- The `all_recommendations[:5]` slice rendered in the report. -/
def top_recommendations (all_insights : List Insight) : List String :=
  (all_recommendations all_insights).take 5

/-- The top-recommendations block of the report, emitted only when
`all_recommendations` is nonempty. -/
def recommendationLines (all_insights : List Insight) : List String :=
  if (all_recommendations all_insights).isEmpty then []
  else ("🎯 TOP RECOMMENDATIONS:" :: "" :: numberedLines 1 (top_recommendations all_insights)) ++ [""]

/-- The fixed report header lines (title and a 50-character rule). -/
def headerLines : List String :=
  ["🔍 GOOGLE ANALYTICS INSIGHTS REPORT",
   "".pushn (Char.ofNat 61) 50,
   ""]

/-- The fixed next-steps footer lines. -/
def nextStepsLines : List String :=
  ["📈 Next Steps:",
   "1. Address critical and high priority issues first",
   "2. Implement quick wins from medium priority optimizations",
   "3. Monitor the impact of changes over 2-4 weeks",
   "4. Run this analysis regularly to track improvements"]

/-- The four severity buckets computed by `generate_summary_report`
(`critical`, `high`, `medium`, `low` list comprehensions). -/
def severityBuckets (all_insights : List Insight) :
    List Insight × List Insight × List Insight × List Insight :=
  (all_insights.filter (fun i => i.severity == "critical"),
   all_insights.filter (fun i => i.severity == "high"),
   all_insights.filter (fun i => i.severity == "medium"),
   all_insights.filter (fun i => i.severity == "low"))

/-- The line list `report` built by `generate_summary_report` for a nonempty
insight list, before joining with newlines. -/
def reportLines (all_insights : List Insight) : List String :=
  let critical := all_insights.filter (fun i => i.severity == "critical")
  let high := all_insights.filter (fun i => i.severity == "high")
  let medium := all_insights.filter (fun i => i.severity == "medium")
  let low := all_insights.filter (fun i => i.severity == "low")
  headerLines
    ++ sectionLines "🚨 CRITICAL ISSUES:" critical
    ++ sectionLines "⚠️  HIGH PRIORITY ITEMS:" high
    ++ sectionLines "📊 OPTIMIZATION OPPORTUNITIES:" medium
    ++ sectionLines "✅ POSITIVE INDICATORS:" low
    ++ recommendationLines all_insights
    ++ nextStepsLines

/-- Embedding of `AnalyticsIntelligence.generate_summary_report`. -/
def generate_summary_report (all_insights : List Insight) : String :=
  if all_insights.isEmpty then "No significant insights found in the current data."
  else String.intercalate "\n" (reportLines all_insights)

/-- Result of one tool call as received by a caller: either the family's data
object or a dictionary carrying an `error` key (`{"error": ...}` in the source). -/
inductive ToolResult where
  | ok (data : MetricsSnapshot)
  | err (msg : String)
  deriving DecidableEq

/-- The `GADataStore` collaborator of `GAMCPServer.handle_tool_call`; each field
models one `get_*` method, with responses restricted to the fields the agent
reads (modelled uniformly as `MetricsSnapshot`). -/
structure DataStore where
  get_traffic_metrics : String → String → MetricsSnapshot
  get_engagement_metrics : String → String → MetricsSnapshot
  get_top_pages : ℕ → MetricsSnapshot
  get_traffic_sources : MetricsSnapshot
  get_demographic_data : MetricsSnapshot

/-- The `parameters` dictionary of a tool call; `none` models an absent key. -/
structure ToolParams where
  start_date : Option String := none
  end_date : Option String := none
  limit : Option ℕ := none

/-- Embedding of `GAMCPServer.handle_tool_call`: dispatch on the tool name,
with an `{"error": "Unknown tool: ..."}` value for unrecognized names. -/
def handle_tool_call (store : DataStore) (tool_name : String) (parameters : ToolParams) : ToolResult :=
  if tool_name = "get_traffic_metrics" then
    ToolResult.ok (store.get_traffic_metrics (parameters.start_date.getD "2024-01-01")
      (parameters.end_date.getD "2024-01-31"))
  else if tool_name = "get_engagement_metrics" then
    ToolResult.ok (store.get_engagement_metrics (parameters.start_date.getD "2024-01-01")
      (parameters.end_date.getD "2024-01-31"))
  else if tool_name = "get_top_pages" then
    ToolResult.ok (store.get_top_pages (parameters.limit.getD 10))
  else if tool_name = "get_traffic_sources" then
    ToolResult.ok store.get_traffic_sources
  else if tool_name = "get_demographic_data" then
    ToolResult.ok store.get_demographic_data
  else
    ToolResult.err ("Unknown tool: " ++ tool_name)

/-- The five tool names registered in `GAMCPServer.__init__` (and discovered by
the client from `GET /tools`). -/
def server_tool_names : List String :=
  ["get_traffic_metrics", "get_engagement_metrics", "get_top_pages",
   "get_traffic_sources", "get_demographic_data"]

/-- How one `MCPClient.call_tool` invocation terminates at its caller: either a
returned dictionary value (`value`, covering both data and `{"error": ...}`
dictionaries) or an exception propagating out of the method (`raised`, the
`raise ValueError(...)` path). -/
inductive CallOutcome where
  | value (r : ToolResult)
  | raised (msg : String)
  deriving DecidableEq

/-- Embedding of `MCPClient.call_tool`: a tool name missing from the discovered
`available_tools` raises `ValueError` before any request is made; otherwise the
server response (`server_respond`, covering the POST round trip, whose transport
failures the method catches and returns as `{"error": ...}` values) is returned. -/
def call_tool (available_tools : List String) (server_respond : String → ToolResult)
    (tool_name : String) : CallOutcome :=
  if available_tools.contains tool_name then CallOutcome.value (server_respond tool_name)
  else CallOutcome.raised ("Tool " ++ tool_name ++ " not available. Available tools: "
    ++ String.intercalate ", " available_tools)

/-- One family's contribution to `run_comprehensive_analysis`: its insights when
the fetched dictionary has no `error` key, nothing otherwise
(the `if "error" not in data` guards). -/
def familyInsights (fetched : ToolResult) (analyze : MetricsSnapshot → List Insight) : List Insight :=
  match fetched with
  | ToolResult.ok d => analyze d
  | ToolResult.err _ => []

/-- Embedding of `AnalyticsAgent.run_comprehensive_analysis`, as a function of
the three family fetch results: each family that fetched successfully
contributes its insights, and the concatenation is rendered by
`generate_summary_report`. -/
def run_comprehensive_analysis (traffic_data engagement_data sources_data : ToolResult) : String :=
  generate_summary_report
    (familyInsights traffic_data analyze_traffic_metrics
      ++ familyInsights engagement_data analyze_engagement_metrics
      ++ familyInsights sources_data analyze_traffic_sources)

/-- The five question intents of `AnalyticsAgent.answer_question`. -/
inductive Intent where
  | traffic
  | engagement
  | sources
  | top_pages
  | demographics
  deriving DecidableEq

/-- Embedding of the intent selection in `AnalyticsAgent.answer_question`: the
question is lowercased and the five keyword sets are tested in order,
first match wins, `none` for the fallback help reply. -/
def selectIntent (question : String) : Option Intent :=
  let question_lower := strLower question
  if ["traffic", "visitors", "sessions", "users"].any (fun w => strContainsSub question_lower w) then
    some Intent.traffic
  else if ["engagement", "bounce", "duration", "time"].any (fun w => strContainsSub question_lower w) then
    some Intent.engagement
  else if ["source", "referral", "social", "search"].any (fun w => strContainsSub question_lower w) then
    some Intent.sources
  else if ["pages", "content", "popular"].any (fun w => strContainsSub question_lower w) then
    some Intent.top_pages
  else if ["demographics", "location", "country", "device", "mobile"].any (fun w => strContainsSub question_lower w) then
    some Intent.demographics
  else
    none

/-- Embedding of the engagement-intent answer sentence of
`AnalyticsAgent.answer_question` (the `f"Your website has a {bounce_rate}% ..."`
template with its `bounce_rate < 50` wording switch). -/
def engagement_answer (data : MetricsSnapshot) : String :=
  let bounce_rate := data.bounce_rate.getD 0
  let duration := data.average_session_duration.getD 0
  "Your website has a " ++ fmtQ bounce_rate ++ "% bounce rate and users spend an average of "
    ++ toString (pyFloorDiv duration 60) ++ ":" ++ pad2 (pyModInt duration 60)
    ++ " minutes on the site. "
    ++ (if bounce_rate < 50 then "This indicates good engagement."
        else "Consider improving page content and loading speed to reduce bounce rate.")

/-- Discriminator for a `call_tool` invocation that terminated by raising an
exception rather than returning a value. -/
def isRaised : CallOutcome → Bool
  | CallOutcome.raised _ => true
  | CallOutcome.value _ => false

/-- A data store with all-default responses, used as a concrete collaborator. -/
def trivial_store : DataStore :=
  { get_traffic_metrics := fun _ _ => {}, get_engagement_metrics := fun _ _ => {},
    get_top_pages := fun _ => {}, get_traffic_sources := {}, get_demographic_data := {} }

/-- The end-to-end scenario snapshot of the specification:
`{sessions: 300, bounce_rate: 75, average_session_duration: 50,
channels: {organic_search: 80, direct: 10, social: 5}}`, all other fields absent. -/
def c1_snapshot : MetricsSnapshot :=
  { sessions := some 300, bounce_rate := some 75, average_session_duration := some 50,
    channels := some { organic_search := some 80, direct := some 10, social := some 5 } }

/-- The concatenation of the three family evaluations on the scenario snapshot,
in the order `run_comprehensive_analysis` produces them. -/
def c1_all_insights : List Insight :=
  analyze_traffic_metrics c1_snapshot ++ analyze_engagement_metrics c1_snapshot
    ++ analyze_traffic_sources c1_snapshot

/-- A snapshot whose `sessions` value sits exactly on the 500 boundary. -/
def snap500 : MetricsSnapshot := { sessions := some 500 }

/-- A snapshot whose `sessions` value sits exactly on the 1000 boundary. -/
def snap1000 : MetricsSnapshot := { sessions := some 1000 }

/-- Arrival-order example insight A: high severity. -/
def iA : Insight :=
  { type := InsightType.alert, title := "A", description := "a", severity := "high",
    recommendations := ["a1", "a2"], data_source := "test", confidence := 1 }

/-- Arrival-order example insight B: low severity. -/
def iB : Insight :=
  { type := InsightType.performance, title := "B", description := "b", severity := "low",
    recommendations := ["b1"], data_source := "test", confidence := 1 }

/-- Arrival-order example insight C: high severity. -/
def iC : Insight :=
  { type := InsightType.alert, title := "C", description := "c", severity := "high",
    recommendations := ["c1", "c2"], data_source := "test", confidence := 1 }

/-- Arrival-order example insight D: medium severity. -/
def iD : Insight :=
  { type := InsightType.optimization, title := "D", description := "d", severity := "medium",
    recommendations := ["d1", "d2"], data_source := "test", confidence := 1 }

/-- A snapshot with no keys at all. -/
def empty_snapshot : MetricsSnapshot := {}

/-- The Q&A scenario question `"What's my bounce rate?"`. -/
def c9_question : String := "What" ++ apostrophe ++ "s my bounce rate?"

/-- The Q&A scenario engagement snapshot
`{bounce_rate: 45, average_session_duration: 150}`. -/
def c9_snapshot : MetricsSnapshot :=
  { bounce_rate := some 45, average_session_duration := some 150 }

/-- C1 counterexample: on the scenario snapshot the three family evaluations
produce seven insights, not six as claimed — the absent `pages_per_session`
reads as 0, so the `pages_per_session < 2.0` rule also fires, adding the
"Low Page Engagement" insight. -/
theorem c1_counterexample_low_page_engagement :
    c1_all_insights.length = 7 ∧ ¬(c1_all_insights.length = 6) ∧
    "Low Page Engagement" ∈ c1_all_insights.map Insight.title := by
  decide

/-- C1 (amended): the scenario snapshot produces the six claimed insights with
their claimed severities, plus "Low Page Engagement" (medium) from the absent
`pages_per_session` defaulting to 0 — in total exactly 7 insights grouped as
high(2), medium(4), low(1), critical(0). -/
theorem c1_amended_seven_insights :
    c1_all_insights.map (fun i => (i.title, i.severity)) =
      [("Low Traffic Volume", "high"), ("Low Page Engagement", "medium"),
       ("High Bounce Rate", "high"), ("Short Session Duration", "medium"),
       ("High Dependency on Organic Search", "medium"), ("Low Brand Recognition", "medium"),
       ("Social Media Growth Opportunity", "low")] ∧
    (c1_all_insights.filter (fun i => i.severity == "high")).length = 2 ∧
    (c1_all_insights.filter (fun i => i.severity == "medium")).length = 4 ∧
    (c1_all_insights.filter (fun i => i.severity == "low")).length = 1 ∧
    (c1_all_insights.filter (fun i => i.severity == "critical")).length = 0 := by
  decide

/-- C2: for every snapshot, `analyze_engagement_metrics` never emits the
"High Bounce Rate" alert and the "Good User Engagement" performance insight
together, and at most one bounce-rate insight appears in its output
(mutual exclusivity of the `if / elif` chain on `bounce_rate`). -/
theorem c2_bounce_insights_mutually_exclusive (data : MetricsSnapshot) :
    ¬("High Bounce Rate" ∈ (analyze_engagement_metrics data).map Insight.title ∧
       "Good User Engagement" ∈ (analyze_engagement_metrics data).map Insight.title) ∧
    ((analyze_engagement_metrics data).filter
        (fun i => i.title == "High Bounce Rate" || i.title == "Good User Engagement")).length ≤ 1 := by
  simp only [analyze_engagement_metrics]
  split_ifs <;>
    simp [highBounceInsight, goodEngagementInsight, shortSessionInsight]

/-- C3: the session thresholds are strict — a snapshot with `sessions = 500`
gets neither the "Low Traffic Volume" alert nor the "Strong Traffic
Performance" insight, and a snapshot with `sessions = 1000` gets no
"Strong Traffic Performance" insight. -/
theorem c3_session_threshold_boundaries (d1 d2 : MetricsSnapshot)
    (h1 : d1.sessions = some 500) (h2 : d2.sessions = some 1000) :
    ("Low Traffic Volume" ∉ (analyze_traffic_metrics d1).map Insight.title ∧
     "Strong Traffic Performance" ∉ (analyze_traffic_metrics d1).map Insight.title) ∧
    "Strong Traffic Performance" ∉ (analyze_traffic_metrics d2).map Insight.title := by
  have e1 : ¬((500 : ℚ) < 500) := by norm_num
  have e2 : ¬((500 : ℚ) > 1000) := by norm_num
  have e3 : ¬((1000 : ℚ) < 500) := by norm_num
  have e4 : ¬((1000 : ℚ) > 1000) := by norm_num
  simp only [analyze_traffic_metrics, h1, h2, Option.getD_some, e1, e2, e3, e4, if_false,
    if_neg, List.nil_append]
  split_ifs <;>
    simp [lowTrafficInsight, strongTrafficInsight, lowPageEngagementInsight]

/-- C3 witness: the boundary theorem applied to the concrete snapshots
`{sessions: 500}` and `{sessions: 1000}`. -/
theorem c3_session_threshold_boundaries_witness :
    snap500.sessions = some 500 ∧ snap1000.sessions = some 1000 ∧
    (("Low Traffic Volume" ∉ (analyze_traffic_metrics snap500).map Insight.title ∧
      "Strong Traffic Performance" ∉ (analyze_traffic_metrics snap500).map Insight.title) ∧
     "Strong Traffic Performance" ∉ (analyze_traffic_metrics snap1000).map Insight.title) :=
  ⟨rfl, rfl, c3_session_threshold_boundaries snap500 snap1000 rfl rfl⟩

/-- C4: the report groups insights into the four severity buckets computed as
arrival-order-preserving filters (each bucket is a sublist of the input), the
rendered sections appear in the fixed order critical, high, medium, low, and
on the arrival order `[A(high), B(low), C(high), D(medium)]` the buckets are
`([], [A, C], [D], [B])`, rendered with `[A, C]` then `[D]` then `[B]` and no
critical section. -/
theorem c4_severity_grouping :
    (∀ l : List Insight,
        reportLines l =
          headerLines
            ++ sectionLines "🚨 CRITICAL ISSUES:" (severityBuckets l).1
            ++ sectionLines "⚠️  HIGH PRIORITY ITEMS:" (severityBuckets l).2.1
            ++ sectionLines "📊 OPTIMIZATION OPPORTUNITIES:" (severityBuckets l).2.2.1
            ++ sectionLines "✅ POSITIVE INDICATORS:" (severityBuckets l).2.2.2
            ++ recommendationLines l
            ++ nextStepsLines) ∧
    (∀ l : List Insight,
        (severityBuckets l).1.Sublist l ∧ (severityBuckets l).2.1.Sublist l ∧
          (severityBuckets l).2.2.1.Sublist l ∧ (severityBuckets l).2.2.2.Sublist l) ∧
    severityBuckets [iA, iB, iC, iD] = ([], [iA, iC], [iD], [iB]) ∧
    reportLines [iA, iB, iC, iD] =
      ["🔍 GOOGLE ANALYTICS INSIGHTS REPORT",
       "".pushn (Char.ofNat 61) 50,
       "",
       "⚠️  HIGH PRIORITY ITEMS:", "", "• A", "  a", "", "• C", "  c", "",
       "📊 OPTIMIZATION OPPORTUNITIES:", "", "• D", "  d", "",
       "✅ POSITIVE INDICATORS:", "", "• B", "  b", "",
       "🎯 TOP RECOMMENDATIONS:", "", "1. a1", "2. a2", "3. c1", "4. c2", "5. d1", "",
       "📈 Next Steps:",
       "1. Address critical and high priority issues first",
       "2. Implement quick wins from medium priority optimizations",
       "3. Monitor the impact of changes over 2-4 weeks",
       "4. Run this analysis regularly to track improvements"] :=
  ⟨fun _ => rfl,
   fun l => ⟨List.filter_sublist l, List.filter_sublist l, List.filter_sublist l,
     List.filter_sublist l⟩,
   rfl, rfl⟩

/-- C5: the rendered top-recommendations slice is exactly the first five entries
of the concatenation of the high-severity insights' recommendation lists
(arrival order) followed by the medium-severity ones, each list's internal
order preserved; it has at most five entries, and every entry comes from the
recommendations of some high- or medium-severity insight of the input (so
critical- and low-severity insights never contribute). -/
theorem c5_top_recommendations_truncation (l : List Insight) :
    top_recommendations l =
      (((l.filter (fun i => i.severity == "high")).flatMap Insight.recommendations)
        ++ ((l.filter (fun i => i.severity == "medium")).flatMap Insight.recommendations)).take 5 ∧
    (top_recommendations l).length ≤ 5 ∧
    ∀ r ∈ top_recommendations l, ∃ i, i ∈ l ∧ (i.severity = "high" ∨ i.severity = "medium")
        ∧ r ∈ i.recommendations := by
  refine ⟨?_, List.length_take_le 5 (all_recommendations l), ?_⟩
  · simp [top_recommendations, all_recommendations, List.flatMap_append]
  · intro r hr
    have hr' : r ∈ all_recommendations l := (List.take_sublist 5 _).subset hr
    simp only [all_recommendations, List.mem_flatMap, List.mem_append, List.mem_filter,
      beq_iff_eq] at hr'
    obtain ⟨i, hi, hrec⟩ := hr'
    rcases hi with ⟨hil, hsev⟩ | ⟨hil, hsev⟩
    · exact ⟨i, hil, Or.inl hsev, hrec⟩
    · exact ⟨i, hil, Or.inr hsev, hrec⟩

/-- C6: aggregating the empty insight list returns exactly the literal fallback
sentence, with no header, sections, or footer. -/
theorem c6_empty_report_fallback :
    generate_summary_report [] = "No significant insights found in the current data." := rfl

/-- C7 counterexample: a tool name the source does not recognize is also absent
from the client's discovered tool list, and `MCPClient.call_tool` then raises
`ValueError` instead of returning an error value — the unknown-tool failure
does cross the boundary as a raised fault, falsifying the claim as stated. -/
theorem c7_counterexample_unknown_tool_raises :
    call_tool server_tool_names (fun n => handle_tool_call trivial_store n {})
        "get_conversion_metrics" =
      CallOutcome.raised ("Tool get_conversion_metrics not available. Available tools: get_traffic_metrics, get_engagement_metrics, get_top_pages, get_traffic_sources, get_demographic_data") ∧
    isRaised (call_tool server_tool_names (fun n => handle_tool_call trivial_store n {})
        "get_conversion_metrics") = true := by
  constructor
  · decide
  · decide

/-- C7 (amended): the server side represents an unknown tool as a returned
error value (`{"error": "Unknown tool: ..."}`, never an uncaught fault), but
the client's `call_tool` raises `ValueError` for any tool name absent from its
discovered `available_tools` — so when discovery mirrors the server's tool
table, an unknown-tool request fails by a raised exception on the client side,
not by an error value. -/
theorem c7_amended_unknown_tool (tools : List String) (store : DataStore)
    (params : ToolParams) (name : String)
    (hclient : name ∉ tools) (hserver : name ∉ server_tool_names) :
    (∀ server_respond : String → ToolResult,
        call_tool tools server_respond name =
          CallOutcome.raised ("Tool " ++ name ++ " not available. Available tools: "
            ++ String.intercalate ", " tools)) ∧
    handle_tool_call store name params = ToolResult.err ("Unknown tool: " ++ name) := by
  constructor
  · intro f
    simp [call_tool, hclient]
  · simp only [server_tool_names, List.mem_cons, List.mem_singleton, not_or] at hserver
    obtain ⟨n1, n2, n3, n4, n5⟩ := hserver
    simp [handle_tool_call, n1, n2, n3, n4, n5]

/-- C7 witness: the amended theorem applied to the concrete unknown tool name
`"get_conversion_metrics"` against the standard tool table. -/
theorem c7_amended_unknown_tool_witness :
    ("get_conversion_metrics" ∉ server_tool_names) ∧
    call_tool server_tool_names (fun n => handle_tool_call trivial_store n {})
        "get_conversion_metrics" =
      CallOutcome.raised ("Tool " ++ "get_conversion_metrics" ++ " not available. Available tools: "
        ++ String.intercalate ", " server_tool_names) ∧
    handle_tool_call trivial_store "get_conversion_metrics" {} =
      ToolResult.err ("Unknown tool: " ++ "get_conversion_metrics") :=
  ⟨by decide,
   (c7_amended_unknown_tool server_tool_names trivial_store {} "get_conversion_metrics"
      (by decide) (by decide)).1 (fun n => handle_tool_call trivial_store n {}),
   (c7_amended_unknown_tool server_tool_names trivial_store {} "get_conversion_metrics"
      (by decide) (by decide)).2⟩

/-- C8: a family whose fetch returned an error value contributes zero insights,
the run still aggregates the remaining families into a report, and with all
three families failed the report is the empty-insight fallback sentence. -/
theorem c8_family_failure_degrades_gracefully :
    (∀ (m : String) (f : MetricsSnapshot → List Insight),
        familyInsights (ToolResult.err m) f = []) ∧
    (∀ (m : String) (e s : ToolResult),
        run_comprehensive_analysis (ToolResult.err m) e s =
          generate_summary_report (familyInsights e analyze_engagement_metrics
            ++ familyInsights s analyze_traffic_sources)) ∧
    (∀ (t : ToolResult) (m : String) (s : ToolResult),
        run_comprehensive_analysis t (ToolResult.err m) s =
          generate_summary_report (familyInsights t analyze_traffic_metrics
            ++ familyInsights s analyze_traffic_sources)) ∧
    (∀ (t e : ToolResult) (m : String),
        run_comprehensive_analysis t e (ToolResult.err m) =
          generate_summary_report (familyInsights t analyze_traffic_metrics
            ++ familyInsights e analyze_engagement_metrics)) ∧
    (∀ m1 m2 m3 : String,
        run_comprehensive_analysis (ToolResult.err m1) (ToolResult.err m2) (ToolResult.err m3) =
          "No significant insights found in the current data.") := by
  refine ⟨fun m f => rfl, fun m e s => rfl, fun t m s => ?_, fun t e m => ?_,
    fun m1 m2 m3 => rfl⟩
  · exact congrArg generate_summary_report (by simp [familyInsights, run_comprehensive_analysis])
  · exact congrArg generate_summary_report (by simp [familyInsights, run_comprehensive_analysis])

/-- C9: the question "What's my bounce rate?" matches no traffic keyword,
matches the engagement keyword "bounce", and with the snapshot
`{bounce_rate: 45, average_session_duration: 150}` the engagement answer
contains "45" and the good-engagement phrase (45 < 50), not the improvement
suggestion. -/
theorem c9_bounce_question_engagement_intent :
    selectIntent c9_question = some Intent.engagement ∧
    (["traffic", "visitors", "sessions", "users"].any
        (fun w => strContainsSub (strLower c9_question) w)) = false ∧
    strContainsSub (strLower c9_question) "bounce" = true ∧
    engagement_answer c9_snapshot =
      "Your website has a 45% bounce rate and users spend an average of 2:30 minutes on the site. This indicates good engagement." ∧
    strContainsSub (engagement_answer c9_snapshot) "45" = true ∧
    strContainsSub (engagement_answer c9_snapshot) "This indicates good engagement." = true ∧
    strContainsSub (engagement_answer c9_snapshot)
        "Consider improving page content and loading speed to reduce bounce rate." = false := by
  decide

/-- C10: on the empty snapshot, `analyze_engagement_metrics` reads both metrics
as 0 and returns exactly "Good User Engagement" (low) followed by
"Short Session Duration" (medium) — the same output as for a snapshot with
measured zeros. -/
theorem c10_empty_snapshot_engagement :
    (analyze_engagement_metrics empty_snapshot).map (fun i => (i.title, i.severity)) =
      [("Good User Engagement", "low"), ("Short Session Duration", "medium")] ∧
    analyze_engagement_metrics empty_snapshot =
      analyze_engagement_metrics { bounce_rate := some 0, average_session_duration := some 0 } ∧
    (analyze_engagement_metrics empty_snapshot).length = 2 :=
  ⟨by decide, rfl, by decide⟩
